import Mathlib

/-!
Verification development for the network/flow visualization engine of an
AML (anti-money-laundering) analytics dashboard.  The JavaScript source is
shallowly embedded: JS numbers are modelled as rationals (reals where a
square root occurs), 32-bit integer coercions are made explicit, mutable
caches become explicitly threaded state, and the external geocoding service
is an oracle parameter.
-/

/-- A geographic coordinate pair, as produced by the geocoding service. -/
structure Coord where
  lat : ℚ
  lng : ℚ
deriving DecidableEq, Repr

namespace NetworkAnalysis

/-- Embeds NetworkAnalysis.getNodeColor from static/js/alerts.js: node fill
color keyed on a risk score, with thresholds 0.7 and 0.3. -/
def getNodeColor (riskScore : ℚ) : String :=
  if riskScore ≥ 7/10 then "#dc3545"
  else if riskScore ≥ 3/10 then "#ffc107"
  else "#28a745"

/-- Embeds NetworkAnalysis.getLinkColor from static/js/alerts.js: graph link
stroke color keyed on a risk score, with thresholds 0.7 and 0.3. -/
def getLinkColor (riskScore : ℚ) : String :=
  if riskScore ≥ 7/10 then "#dc3545"
  else if riskScore ≥ 3/10 then "#ffc107"
  else "#17a2b8"

/-- Embeds the riskColor helper defined inside
NetworkAnalysis.addTransactionFlows in static/js/alerts.js: map flow color
keyed on a risk score, with strict thresholds 0.7 and 0.4. -/
def riskColor (risk : ℚ) : String :=
  if risk > 7/10 then "#dc3545"
  else if risk > 4/10 then "#ffc107"
  else "#28a745"

/-- The high-risk filter predicate of
NetworkAnalysis.applyHierarchicalLayout in static/js/alerts.js. -/
def hierarchyHigh (r : ℚ) : Bool :=
  decide (r > 7/10)

/-- The medium-risk filter predicate of
NetworkAnalysis.applyHierarchicalLayout in static/js/alerts.js. -/
def hierarchyMedium (r : ℚ) : Bool :=
  decide (r > 4/10) && decide (r ≤ 7/10)

/-- The low-risk filter predicate of
NetworkAnalysis.applyHierarchicalLayout in static/js/alerts.js. -/
def hierarchyLow (r : ℚ) : Bool :=
  decide (r ≤ 4/10)

/-- A node as consumed by the hierarchical layout: an identifier and an
average risk score. -/
structure LNode where
  id : String
  avg_risk_score : ℚ
deriving DecidableEq, Repr

/-- Embeds NetworkAnalysis.applyHierarchicalLayout from
static/js/alerts.js: nodes are bucketed into three risk levels, level i
(0-based) is placed at y = height/4 * (i+1), and the nodes of a level of
size k are placed at x = width/(k+1) * (j+1) for j = 0..k-1.  The result
lists each node's id with its assigned (x, y) position. -/
def applyHierarchicalLayout (width height : ℚ) (nodes : List LNode) :
    List (String × ℚ × ℚ) :=
  let highRisk := nodes.filter (fun n => hierarchyHigh n.avg_risk_score)
  let mediumRisk := nodes.filter (fun n => hierarchyMedium n.avg_risk_score)
  let lowRisk := nodes.filter (fun n => hierarchyLow n.avg_risk_score)
  let levels := [highRisk, mediumRisk, lowRisk]
  let levelHeight := height / 4
  (levels.enum.map (fun li =>
    let y := levelHeight * (li.1 + 1)
    let xStep := width / (li.2.length + 1)
    li.2.enum.map (fun ni => (ni.2.id, xStep * (ni.1 + 1), y)))).flatten

/-- Embeds the interpolatePath helper defined inside
NetworkAnalysis.addTransactionFlows in static/js/alerts.js, specialised to
the two-point paths that function always builds: clamped at the endpoints,
linear in between. -/
def interpolatePath (p0 p1 : ℚ × ℚ) (t : ℚ) : ℚ × ℚ :=
  if t ≤ 0 then p0
  else if t ≥ 1 then p1
  else (p0.1 + (p1.1 - p0.1) * t, p0.2 + (p1.2 - p0.2) * t)

end NetworkAnalysis

/-- C1 counterexample: the three tier splits do not agree and do not use
the claimed breakpoints.  At r = 0.7 the map flow color is medium yellow
and the hierarchical layout does not class the node as high, while the
node color is high red; at r = 0.35 the node color is medium, not low. -/
theorem c1_counterexample :
    NetworkAnalysis.riskColor (7/10) = "#ffc107" ∧
    NetworkAnalysis.getNodeColor (7/10) = "#dc3545" ∧
    NetworkAnalysis.hierarchyHigh (7/10) = false ∧
    NetworkAnalysis.getNodeColor (35/100) = "#ffc107" ∧
    NetworkAnalysis.hierarchyLow (35/100) = true := by
  refine ⟨?_, ?_, ?_, ?_, ?_⟩ <;>
    norm_num [NetworkAnalysis.riskColor, NetworkAnalysis.getNodeColor,
      NetworkAnalysis.hierarchyHigh, NetworkAnalysis.hierarchyLow]

/-- C1 amended: each split is exhaustive and non-overlapping, and the layout
split agrees with the map flow coloring (strict thresholds 0.7 and 0.4:
high for r > 0.7, medium for 0.4 < r ≤ 0.7, low for r ≤ 0.4), but the node
and graph-link coloring instead uses inclusive thresholds 0.7 and 0.3
(high for r ≥ 0.7, medium for 0.3 ≤ r < 0.7, low for r < 0.3), so the
components disagree at r = 0.7 and on [0.3, 0.4]. -/
theorem c1_tier_thresholds (r : ℚ) :
    (NetworkAnalysis.riskColor r = "#dc3545" ↔ NetworkAnalysis.hierarchyHigh r = true) ∧
    (NetworkAnalysis.riskColor r = "#ffc107" ↔ NetworkAnalysis.hierarchyMedium r = true) ∧
    (NetworkAnalysis.riskColor r = "#28a745" ↔ NetworkAnalysis.hierarchyLow r = true) ∧
    (NetworkAnalysis.hierarchyHigh r = true ↔ 7/10 < r) ∧
    (NetworkAnalysis.hierarchyMedium r = true ↔ 4/10 < r ∧ r ≤ 7/10) ∧
    (NetworkAnalysis.hierarchyLow r = true ↔ r ≤ 4/10) ∧
    (NetworkAnalysis.getNodeColor r = "#dc3545" ↔ 7/10 ≤ r) ∧
    (NetworkAnalysis.getNodeColor r = "#ffc107" ↔ 3/10 ≤ r ∧ r < 7/10) ∧
    (NetworkAnalysis.getNodeColor r = "#28a745" ↔ r < 3/10) ∧
    (NetworkAnalysis.getLinkColor r = "#dc3545" ↔ 7/10 ≤ r) ∧
    (NetworkAnalysis.getLinkColor r = "#ffc107" ↔ 3/10 ≤ r ∧ r < 7/10) ∧
    (NetworkAnalysis.getLinkColor r = "#17a2b8" ↔ r < 3/10) := by
  unfold NetworkAnalysis.riskColor NetworkAnalysis.getNodeColor
    NetworkAnalysis.getLinkColor NetworkAnalysis.hierarchyHigh
    NetworkAnalysis.hierarchyMedium NetworkAnalysis.hierarchyLow
  split_ifs with h1 h2 h3 h4 h5 h6 <;>
    refine ⟨?_, ?_, ?_, ?_, ?_, ?_, ?_, ?_, ?_, ?_, ?_, ?_⟩ <;>
    simp_all <;> linarith

/-- C8: in the tiered (hierarchical) layout, nodes A, B, C with risk scores
0.8, 0.5, 0.1 land in the high, medium and low bands respectively; the
bands have three pairwise distinct y-coordinates h/4, h/2, 3h/4, and the
single node of each band sits at the evenly spaced position w/2. -/
theorem c8_tiered_scenario (w h : ℚ) (hpos : 0 < h) :
    NetworkAnalysis.applyHierarchicalLayout w h
        [⟨"A", 8/10⟩, ⟨"B", 5/10⟩, ⟨"C", 1/10⟩] =
      [("A", w / 2, h / 4), ("B", w / 2, h / 2), ("C", w / 2, 3 * h / 4)] ∧
    h / 4 ≠ h / 2 ∧ h / 4 ≠ 3 * h / 4 ∧ h / 2 ≠ 3 * h / 4 := by
  refine ⟨?_, by intro hc; linarith, by intro hc; linarith,
    by intro hc; linarith⟩
  norm_num [NetworkAnalysis.applyHierarchicalLayout, NetworkAnalysis.hierarchyHigh,
    NetworkAnalysis.hierarchyMedium, NetworkAnalysis.hierarchyLow,
    List.filter, List.enum]
  ring_nf
  exact ⟨trivial, trivial⟩

/-- Witness for c8_tiered_scenario at w = 800, h = 600. -/
theorem c8_tiered_scenario_witness :
    NetworkAnalysis.applyHierarchicalLayout 800 600
        [⟨"A", 8/10⟩, ⟨"B", 5/10⟩, ⟨"C", 1/10⟩] =
      [("A", (800 : ℚ) / 2, (600 : ℚ) / 4), ("B", (800 : ℚ) / 2, (600 : ℚ) / 2),
        ("C", (800 : ℚ) / 2, 3 * (600 : ℚ) / 4)] ∧
    (600 : ℚ) / 4 ≠ 600 / 2 ∧ (600 : ℚ) / 4 ≠ 3 * 600 / 4 ∧
    (600 : ℚ) / 2 ≠ 3 * 600 / 4 :=
  c8_tiered_scenario 800 600 (by norm_num)

/-- C9: the two-point path interpolation is total and clamped: t ≤ 0 gives
the first waypoint, t ≥ 1 the last, and every output is a convex
combination of the two endpoints, so each animated dot position lies on the
segment between the resolved source and target coordinates. -/
theorem c9_interpolate_clamped (p0 p1 : ℚ × ℚ) (t : ℚ) :
    (t ≤ 0 → NetworkAnalysis.interpolatePath p0 p1 t = p0) ∧
    (1 ≤ t → NetworkAnalysis.interpolatePath p0 p1 t = p1) ∧
    ∃ s, 0 ≤ s ∧ s ≤ 1 ∧
      NetworkAnalysis.interpolatePath p0 p1 t =
        (p0.1 + (p1.1 - p0.1) * s, p0.2 + (p1.2 - p0.2) * s) := by
  unfold NetworkAnalysis.interpolatePath
  split_ifs with h1 h2
  · exact ⟨fun _ => rfl, fun hc => absurd (le_trans hc h1) (by norm_num),
      0, le_refl 0, by norm_num, by simp⟩
  · exact ⟨fun hc => absurd (le_trans h2 hc) (by norm_num), fun _ => rfl,
      1, by norm_num, le_refl 1, by simp⟩
  · push_neg at h1 h2
    exact ⟨fun hc => absurd hc (not_le.mpr h1), fun hc => absurd hc (not_le.mpr h2),
      t, le_of_lt h1, le_of_lt h2, rfl⟩

/-- Witness for c9_interpolate_clamped: at t = 0 the interpolation returns
the first endpoint. -/
theorem c9_interpolate_clamped_witness :
    NetworkAnalysis.interpolatePath (0, 0) (2, 4) 0 = (0, 0) :=
  (c9_interpolate_clamped (0, 0) (2, 4) 0).1 (le_refl 0)

/-- Coerces an integer to the range of a 32-bit signed integer, as the
JavaScript bitwise operators do. -/
def toInt32 (x : ℤ) : ℤ :=
  (x + 2 ^ 31) % 2 ^ 32 - 2 ^ 31

namespace CashFlowAnalysis

/-- One iteration of the loop body of CashFlowAnalysis.simpleHash:
`hash = ((hash << 5) - hash) + char; hash = hash & hash` with the 32-bit
coercions of the shift and of the self-AND made explicit. -/
def hashStep (hash : ℤ) (char : ℕ) : ℤ :=
  toInt32 (toInt32 (hash * 32) - hash + char)

/-- Embeds CashFlowAnalysis.simpleHash: folds hashStep over the character
codes of the string starting from 0 and returns the absolute value. -/
def simpleHash (str : String) : ℤ :=
  (((str.data.map Char.toNat).foldl hashStep 0).natAbs : ℤ)

/-- Renders the template string of CashFlowAnalysis.getNodeColor. -/
def hslColor (hue saturation lightness : ℤ) : String :=
  "hsl(" ++ toString hue ++ ", " ++ toString saturation ++ "%, " ++
    toString lightness ++ "%)"

/-- The cache-miss branch of CashFlowAnalysis.getNodeColor: hue, saturation
and lightness derived from the group-name hash. -/
def computeNodeColor (group : String) : String :=
  hslColor (simpleHash group % 360) (70 + simpleHash group % 30)
    (45 + simpleHash group % 20)

/-- Embeds CashFlowAnalysis.getNodeColor: consult the color cache first and
return the cached string on a hit; otherwise compute the color from the
hash and store it.  The mutable this.colorCache map is threaded
explicitly. -/
def getNodeColor (colorCache : List (String × String)) (group : String) :
    String × List (String × String) :=
  match colorCache.lookup group with
  | some c => (c, colorCache)
  | none =>
    let c := computeNodeColor group
    (c, (group, c) :: colorCache)

end CashFlowAnalysis

/-- C10: node color generation is deterministic and memoized — a second
call with the same group returns the identical color string and leaves the
cache unchanged — and the hash is non-negative, so hue lies in [0,360),
saturation in [70,100) and lightness in [45,65). -/
theorem c10_node_color (colorCache : List (String × String)) (group : String) :
    (CashFlowAnalysis.getNodeColor
        (CashFlowAnalysis.getNodeColor colorCache group).2 group).1 =
      (CashFlowAnalysis.getNodeColor colorCache group).1 ∧
    (CashFlowAnalysis.getNodeColor
        (CashFlowAnalysis.getNodeColor colorCache group).2 group).2 =
      (CashFlowAnalysis.getNodeColor colorCache group).2 ∧
    0 ≤ CashFlowAnalysis.simpleHash group ∧
    0 ≤ CashFlowAnalysis.simpleHash group % 360 ∧
    CashFlowAnalysis.simpleHash group % 360 < 360 ∧
    70 ≤ 70 + CashFlowAnalysis.simpleHash group % 30 ∧
    70 + CashFlowAnalysis.simpleHash group % 30 < 100 ∧
    45 ≤ 45 + CashFlowAnalysis.simpleHash group % 20 ∧
    45 + CashFlowAnalysis.simpleHash group % 20 < 65 := by
  have hnn : 0 ≤ CashFlowAnalysis.simpleHash group := Int.natCast_nonneg _
  have h360 := Int.emod_nonneg (CashFlowAnalysis.simpleHash group)
    (by norm_num : (360 : ℤ) ≠ 0)
  have h360lt := Int.emod_lt_of_pos (CashFlowAnalysis.simpleHash group)
    (by norm_num : (0 : ℤ) < 360)
  have h30 := Int.emod_nonneg (CashFlowAnalysis.simpleHash group)
    (by norm_num : (30 : ℤ) ≠ 0)
  have h30lt := Int.emod_lt_of_pos (CashFlowAnalysis.simpleHash group)
    (by norm_num : (0 : ℤ) < 30)
  have h20 := Int.emod_nonneg (CashFlowAnalysis.simpleHash group)
    (by norm_num : (20 : ℤ) ≠ 0)
  have h20lt := Int.emod_lt_of_pos (CashFlowAnalysis.simpleHash group)
    (by norm_num : (0 : ℤ) < 20)
  refine ⟨?_, ?_, hnn, h360, h360lt, by linarith, by linarith, by linarith,
    by linarith⟩ <;>
  · unfold CashFlowAnalysis.getNodeColor
    rcases hc : colorCache.lookup group with _ | c
    · simp [hc, List.lookup]
    · simp [hc]

/-- A loosely typed JavaScript value as it can reach the coordinate
resolvers: a string, a number, null or undefined. -/
inductive JSValue where
  | vstr (s : String)
  | vnum (n : ℚ)
  | vnull
  | vundef
deriving DecidableEq, Repr

/-- Drops leading and trailing whitespace characters from a character
list. -/
def trimChars (cs : List Char) : List Char :=
  ((cs.dropWhile Char.isWhitespace).reverse.dropWhile Char.isWhitespace).reverse

/-- The JavaScript String.prototype.trim operation on the embedded
string. -/
def jsTrim (s : String) : String :=
  ⟨trimChars s.data⟩

/-- JavaScript string coercion for the values a resolver can receive, as
template-literal interpolation performs it. -/
def jsToString : JSValue → String
  | .vstr s => s
  | .vnum n => toString n
  | .vnull => "null"
  | .vundef => "undefined"

namespace NetworkAnalysis

/-- Embeds NetworkAnalysis.fetchCountryCoordinates from
static/js/alerts.js.  The guard `!code || typeof code !== 'string' ||
code.trim().length !== 2` returns null before any network request; the only
falsy string is the empty one.  Otherwise one request is made and the
oracle stands for fetch-plus-payload-validation: its answer is returned
as-is (null on a non-ok response, malformed payload or transport error).
The second component counts network requests. -/
def fetchCountryCoordinates (oracle : String → Option Coord) (code : JSValue) :
    Option Coord × ℕ :=
  match code with
  | .vstr s =>
    if s = "" ∨ (jsTrim s).length ≠ 2 then (none, 0)
    else (oracle s, 1)
  | _ => (none, 0)

end NetworkAnalysis

namespace CashFlowAnalysis

/-- Embeds CashFlowAnalysis.fetchCountryCoordinates from the cash-flow
view: no input validation at all — the argument is interpolated into the
request URL and one request is always made.  The oracle answer is returned
as-is; the second component counts network requests. -/
def fetchCountryCoordinates (oracle : String → Option Coord)
    (countrycode : JSValue) : Option Coord × ℕ :=
  (oracle (jsToString countrycode), 1)

end CashFlowAnalysis

/-- C4 counterexample: the claim fails in both resolvers.  The string
" US " has four characters, not two, yet NetworkAnalysis performs a network
request for it (its guard measures the trimmed length); and the cash-flow
resolver performs a network request even for "USA" and for null. -/
theorem c4_counterexample :
    (NetworkAnalysis.fetchCountryCoordinates (fun _ => none)
        (JSValue.vstr " US ")).2 = 1 ∧
    (" US ").length ≠ 2 ∧
    (CashFlowAnalysis.fetchCountryCoordinates (fun _ => none)
        (JSValue.vstr "USA")).2 = 1 ∧
    (CashFlowAnalysis.fetchCountryCoordinates (fun _ => none)
        JSValue.vnull).2 = 1 := by
  refine ⟨?_, by decide, rfl, rfl⟩
  have h2 : jsTrim " US " = "US" := by
    simp [jsTrim, trimChars, String.data, List.dropWhile]
  simp [NetworkAnalysis.fetchCountryCoordinates, h2]
  rfl

/-- C4 amended: the NetworkAnalysis resolver returns null with no network
request for every non-string input and for every string that is empty or
whose TRIMMED length differs from 2 (so a padded string such as " US "
still triggers a request), and it performs at most one request per call;
the CashFlowAnalysis resolver performs exactly one request regardless of
input validity. -/
theorem c4_resolver_validation (oracle : String → Option Coord)
    (v : JSValue) (s : String) (hs : s = "" ∨ (jsTrim s).length ≠ 2) :
    ((∀ u, v ≠ JSValue.vstr u) →
      NetworkAnalysis.fetchCountryCoordinates oracle v = (none, 0)) ∧
    NetworkAnalysis.fetchCountryCoordinates oracle (JSValue.vstr s) =
      (none, 0) ∧
    (NetworkAnalysis.fetchCountryCoordinates oracle v).2 ≤ 1 ∧
    (CashFlowAnalysis.fetchCountryCoordinates oracle v).2 = 1 := by
  refine ⟨?_, ?_, ?_, rfl⟩
  · intro hv
    cases v with
    | vstr u => exact absurd rfl (hv u)
    | vnum n => rfl
    | vnull => rfl
    | vundef => rfl
  · simp [NetworkAnalysis.fetchCountryCoordinates, hs]
  · cases v with
    | vstr u =>
      simp only [NetworkAnalysis.fetchCountryCoordinates]
      split_ifs <;> simp
    | vnum n => simp [NetworkAnalysis.fetchCountryCoordinates]
    | vnull => simp [NetworkAnalysis.fetchCountryCoordinates]
    | vundef => simp [NetworkAnalysis.fetchCountryCoordinates]

/-- Witness for c4_resolver_validation: the three-character code "USA" is
rejected without a request by NetworkAnalysis while CashFlowAnalysis still
fires one. -/
theorem c4_resolver_validation_witness :
    NetworkAnalysis.fetchCountryCoordinates (fun _ => none)
        (JSValue.vstr "USA") = (none, 0) ∧
    (CashFlowAnalysis.fetchCountryCoordinates (fun _ => none)
        JSValue.vnull).2 = 1 :=
  ⟨(c4_resolver_validation (fun _ => none) JSValue.vnull "USA"
      (Or.inr (by decide))).2.1,
    (c4_resolver_validation (fun _ => none) JSValue.vnull "USA"
      (Or.inr (by decide))).2.2.2⟩

/-- Applies a jitter offset to a coordinate, as the cash-flow view does
when it reuses a cached base point. -/
def offsetCoord (c : Coord) (j : ℚ × ℚ) : Coord :=
  ⟨c.lat + j.1, c.lng + j.2⟩

namespace CashFlowAnalysis

/-- The mutable coordinate state of CashFlowAnalysis.updateNetworkView:
the session-long this.bankCoordinatesCache and the per-invocation
bankCoordinates object. -/
structure CFState where
  cache : List (String × Coord)
  bankCoordinates : List (String × Coord)
deriving DecidableEq, Repr

/-- Embeds the per-endpoint resolution step of
CashFlowAnalysis.updateNetworkView for one bank code: skip if the
per-invocation map already has the code; otherwise serve a jittered copy
from the cache on a hit; otherwise perform one external lookup — on
success the unjittered base is cached and a jittered copy used, on failure
a fallback coordinate is cached and used.  jHit and jNew are the random
jitters, fb the random fallback; the second component counts external
lookups. -/
def processBank (oracle : String → Option Coord) (jHit jNew : ℚ × ℚ)
    (fb : Coord) (st : CFState) (code : String) : CFState × ℕ :=
  if (st.bankCoordinates.lookup code).isSome then (st, 0)
  else
    match st.cache.lookup code with
    | some coords =>
      ({ st with
          bankCoordinates := (code, offsetCoord coords jHit) :: st.bankCoordinates },
        0)
    | none =>
      match oracle code with
      | some coords =>
        ({ cache := (code, coords) :: st.cache,
           bankCoordinates := (code, offsetCoord coords jNew) :: st.bankCoordinates },
          1)
      | none =>
        ({ cache := (code, fb) :: st.cache,
           bankCoordinates := (code, fb) :: st.bankCoordinates },
          1)

end CashFlowAnalysis

namespace NetworkAnalysis

/-- Embeds NetworkAnalysis.generateAccountLocations from
static/js/alerts.js, after bank codes have been attached to the nodes: no
cache is consulted ("cache disabled" in the source) — every node with a
two-character bank code triggers a fresh fetchCountryCoordinates call, a
small jitter is added to a successful result, and null keeps the index
aligned otherwise.  The second component counts external lookups. -/
def generateAccountLocations (oracle : String → Option Coord) (j : ℚ × ℚ)
    (codes : List (Option String)) : List (Option Coord) × ℕ :=
  codes.foldl
    (fun acc oc =>
      match oc with
      | some bankCode =>
        if bankCode ≠ "" ∧ bankCode.length = 2 then
          match fetchCountryCoordinates oracle (.vstr bankCode) with
          | (some location, n) => (acc.1 ++ [some (offsetCoord location j)], acc.2 + n)
          | (none, n) => (acc.1 ++ [none], acc.2 + n)
        else (acc.1 ++ [none], acc.2)
      | none => (acc.1 ++ [none], acc.2))
    ([], 0)

end NetworkAnalysis

/-- C2 counterexample: the network-analysis view never caches — resolving
the same code for two nodes in one pass performs two external lookups, not
at most one. -/
theorem c2_counterexample :
    ¬ ((NetworkAnalysis.generateAccountLocations (fun _ => some ⟨7, 8⟩) (0, 0)
        [some "US", some "US"]).2 ≤ 1) := by
  have h : (NetworkAnalysis.generateAccountLocations (fun _ => some ⟨7, 8⟩) (0, 0)
      [some "US", some "US"]).2 = 2 := by
    rfl
  rw [h]
  norm_num

/-- C2 amended: in the cash-flow view the cache invariant does hold —
resolving a code twice performs at most one lookup in total, a cache hit
performs none, a successful first lookup stores the unjittered base
coordinate, and once the code has been resolved a later session pass (fresh
bankCoordinates, same cache) performs no lookup — but in the
network-analysis view every resolution of a code performs a fresh lookup
(no cache). -/
theorem c2_lookup_cached (oracle : String → Option Coord)
    (jHit jNew : ℚ × ℚ) (fb : Coord) (st : CashFlowAnalysis.CFState)
    (c : String) (hbc : st.bankCoordinates.lookup c = none) :
    (CashFlowAnalysis.processBank oracle jHit jNew fb st c).2 ≤ 1 ∧
    (CashFlowAnalysis.processBank oracle jHit jNew fb
      (CashFlowAnalysis.processBank oracle jHit jNew fb st c).1 c).2 = 0 ∧
    (∀ coords, st.cache.lookup c = some coords →
      (CashFlowAnalysis.processBank oracle jHit jNew fb st c).2 = 0) ∧
    (∀ coords, st.cache.lookup c = none → oracle c = some coords →
      ((CashFlowAnalysis.processBank oracle jHit jNew fb st c).1).cache.lookup c =
        some coords) ∧
    (CashFlowAnalysis.processBank oracle jHit jNew fb
      ⟨((CashFlowAnalysis.processBank oracle jHit jNew fb st c).1).cache, []⟩ c).2 = 0 := by
  unfold CashFlowAnalysis.processBank
  rw [hbc]
  simp only [Option.isSome_none, Bool.false_eq_true, if_false]
  rcases hc : st.cache.lookup c with _ | coords
  · rcases ho : oracle c with _ | loc <;>
      simp [hc, ho, hbc, List.lookup]
  · simp [hc, hbc, List.lookup]

/-- Witness for c2_lookup_cached: starting from an empty state with a
successful oracle for "US", the first resolution performs one lookup, the
second none, and the base coordinate is cached. -/
theorem c2_lookup_cached_witness :
    (CashFlowAnalysis.processBank (fun _ => some ⟨7, 8⟩) (0, 0) (0, 0)
        ⟨0, 0⟩ ⟨[], []⟩ "US").2 ≤ 1 ∧
    (CashFlowAnalysis.processBank (fun _ => some ⟨7, 8⟩) (0, 0) (0, 0) ⟨0, 0⟩
      (CashFlowAnalysis.processBank (fun _ => some ⟨7, 8⟩) (0, 0) (0, 0)
        ⟨0, 0⟩ ⟨[], []⟩ "US").1 "US").2 = 0 ∧
    (∀ coords, ([] : List (String × Coord)).lookup "US" = some coords →
      (CashFlowAnalysis.processBank (fun _ => some ⟨7, 8⟩) (0, 0) (0, 0)
        ⟨0, 0⟩ ⟨[], []⟩ "US").2 = 0) ∧
    (∀ coords, ([] : List (String × Coord)).lookup "US" = none →
      (fun _ => some (⟨7, 8⟩ : Coord)) "US" = some coords →
      ((CashFlowAnalysis.processBank (fun _ => some ⟨7, 8⟩) (0, 0) (0, 0)
        ⟨0, 0⟩ ⟨[], []⟩ "US").1).cache.lookup "US" = some coords) ∧
    (CashFlowAnalysis.processBank (fun _ => some ⟨7, 8⟩) (0, 0) (0, 0) ⟨0, 0⟩
      ⟨((CashFlowAnalysis.processBank (fun _ => some ⟨7, 8⟩) (0, 0) (0, 0)
        ⟨0, 0⟩ ⟨[], []⟩ "US").1).cache, []⟩ "US").2 = 0 :=
  c2_lookup_cached (fun _ => some ⟨7, 8⟩) (0, 0) (0, 0) ⟨0, 0⟩ ⟨[], []⟩ "US" rfl

/-- C3 counterexample: after a failed lookup for "XX" the cash-flow view
writes the random fallback coordinate into the session cache, and a second
reference to "XX" in a later pass performs zero lookups — the failed code
is cached, not retried. -/
theorem c3_counterexample :
    ((CashFlowAnalysis.processBank (fun _ => none) (0, 0) (0, 0) ⟨50, 60⟩
        ⟨[], []⟩ "XX").1).cache = [("XX", ⟨50, 60⟩)] ∧
    (CashFlowAnalysis.processBank (fun _ => none) (0, 0) (0, 0) ⟨50, 60⟩
      ⟨((CashFlowAnalysis.processBank (fun _ => none) (0, 0) (0, 0) ⟨50, 60⟩
        ⟨[], []⟩ "XX").1).cache, []⟩ "XX").2 = 0 := by
  constructor <;> rfl

/-- C3 amended: both resolver functions themselves return null on a failed
lookup, but the cash-flow caller does not leave the cache unchanged — for
an uncached code whose lookup fails it writes the random fallback
coordinate as that code's cache entry, so the next reference to the code is
served from the cache and never retried. -/
theorem c3_failure_caches_fallback (oracle : String → Option Coord)
    (jHit jNew : ℚ × ℚ) (fb : Coord) (st : CashFlowAnalysis.CFState)
    (c : String) (hfail : oracle c = none)
    (hcache : st.cache.lookup c = none)
    (hbc : st.bankCoordinates.lookup c = none) :
    (∀ s, oracle s = none →
      (NetworkAnalysis.fetchCountryCoordinates oracle (JSValue.vstr s)).1 = none) ∧
    (CashFlowAnalysis.fetchCountryCoordinates oracle (JSValue.vstr c)).1 = none ∧
    ((CashFlowAnalysis.processBank oracle jHit jNew fb st c).1).cache.lookup c =
      some fb ∧
    (CashFlowAnalysis.processBank oracle jHit jNew fb
      (CashFlowAnalysis.processBank oracle jHit jNew fb st c).1 c).2 = 0 := by
  refine ⟨?_, ?_, ?_, ?_⟩
  · intro s hs
    simp only [NetworkAnalysis.fetchCountryCoordinates]
    split_ifs <;> simp [hs]
  · simp [CashFlowAnalysis.fetchCountryCoordinates, jsToString, hfail]
  · unfold CashFlowAnalysis.processBank
    rw [hbc]
    simp [hcache, hfail, List.lookup]
  · unfold CashFlowAnalysis.processBank
    rw [hbc]
    simp [hcache, hfail, List.lookup]

/-- Witness for c3_failure_caches_fallback with a failing oracle, code "XX"
and fallback (50, 60) from the empty state. -/
theorem c3_failure_caches_fallback_witness :
    (∀ s, (fun (_ : String) => (none : Option Coord)) s = none →
      (NetworkAnalysis.fetchCountryCoordinates (fun _ => none)
        (JSValue.vstr s)).1 = none) ∧
    (CashFlowAnalysis.fetchCountryCoordinates (fun _ => none)
      (JSValue.vstr "XX")).1 = none ∧
    ((CashFlowAnalysis.processBank (fun _ => none) (0, 0) (0, 0) ⟨50, 60⟩
      ⟨[], []⟩ "XX").1).cache.lookup "XX" = some ⟨50, 60⟩ ∧
    (CashFlowAnalysis.processBank (fun _ => none) (0, 0) (0, 0) ⟨50, 60⟩
      (CashFlowAnalysis.processBank (fun _ => none) (0, 0) (0, 0) ⟨50, 60⟩
        ⟨[], []⟩ "XX").1 "XX").2 = 0 :=
  c3_failure_caches_fallback (fun _ => none) (0, 0) (0, 0) ⟨50, 60⟩
    ⟨[], []⟩ "XX" rfl rfl rfl

namespace NetworkAnalysis

/-- Embeds the stroke-width rule of NetworkAnalysis.drawLinks in
static/js/alerts.js: `Math.max(2, Math.min(8, d.amount / 500000))`. -/
def drawLinksStrokeWidth (amount : ℚ) : ℚ :=
  max 2 (min 8 (amount / 500000))

/-- Embeds the polyline weight of NetworkAnalysis.addTransactionFlows in
static/js/alerts.js: `Math.max(3, Math.sqrt(link.amount / 100000))`. -/
noncomputable def mapFlowWeight (amount : ℝ) : ℝ :=
  max 3 (Real.sqrt (amount / 100000))

/-- Embeds the total_amount branch of NetworkAnalysis.getEdgeWidth in
static/js/alerts.js: `Math.max(1, Math.min(8, Math.sqrt(value / 50000)))`. -/
noncomputable def getEdgeWidth (amount : ℝ) : ℝ :=
  max 1 (min 8 (Real.sqrt (amount / 50000)))

end NetworkAnalysis

/-- C5 counterexample: the map-view polyline weight has no upper clamp —
no fixed upper bound dominates it over all non-negative amounts, so the
stroke weight does not lie within a fixed [min, max] range in the map
view. -/
theorem c5_counterexample :
    ¬ ∃ hi : ℝ, ∀ a : ℝ, 0 ≤ a → NetworkAnalysis.mapFlowWeight a ≤ hi := by
  rintro ⟨hi, hbound⟩
  set b : ℝ := max hi 0 + 4 with hb
  have hbpos : 0 ≤ b := by positivity
  have ha : (0 : ℝ) ≤ 100000 * b ^ 2 := by positivity
  have h1 := hbound (100000 * b ^ 2) ha
  have hdiv : (100000 : ℝ) * b ^ 2 / 100000 = b ^ 2 := by ring
  have hsq : Real.sqrt (100000 * b ^ 2 / 100000) = b := by
    rw [hdiv, Real.sqrt_sq hbpos]
  have h2 : b ≤ hi := by
    calc b ≤ NetworkAnalysis.mapFlowWeight (100000 * b ^ 2) := by
            rw [NetworkAnalysis.mapFlowWeight, hsq]; exact le_max_right 3 b
      _ ≤ hi := h1
  have h3 : hi ≤ max hi 0 := le_max_left hi 0
  linarith

/-- C5 amended: all three stroke-weight rules are monotonically
non-decreasing in amount; the graph-view drawLinks width is clamped to
[2, 8] and getEdgeWidth to [1, 8], but the map-view polyline weight is only
clamped below by 3 and has no upper bound. -/
theorem c5_stroke_weights (q r : ℚ) (a b : ℝ) (hqr : q ≤ r) (hab : a ≤ b) :
    NetworkAnalysis.drawLinksStrokeWidth q ≤ NetworkAnalysis.drawLinksStrokeWidth r ∧
    NetworkAnalysis.mapFlowWeight a ≤ NetworkAnalysis.mapFlowWeight b ∧
    NetworkAnalysis.getEdgeWidth a ≤ NetworkAnalysis.getEdgeWidth b ∧
    2 ≤ NetworkAnalysis.drawLinksStrokeWidth q ∧
    NetworkAnalysis.drawLinksStrokeWidth q ≤ 8 ∧
    1 ≤ NetworkAnalysis.getEdgeWidth a ∧
    NetworkAnalysis.getEdgeWidth a ≤ 8 ∧
    3 ≤ NetworkAnalysis.mapFlowWeight a := by
  unfold NetworkAnalysis.drawLinksStrokeWidth NetworkAnalysis.mapFlowWeight
    NetworkAnalysis.getEdgeWidth
  refine ⟨?_, ?_, ?_, le_max_left _ _, ?_, le_max_left _ _, ?_, le_max_left _ _⟩
  · exact max_le_max (le_refl 2)
      (min_le_min (le_refl 8) (by apply div_le_div_of_nonneg_right hqr; norm_num))
  · exact max_le_max (le_refl 3)
      (Real.sqrt_le_sqrt (by apply div_le_div_of_nonneg_right hab; norm_num))
  · exact max_le_max (le_refl 1)
      (min_le_min (le_refl 8)
        (Real.sqrt_le_sqrt (by apply div_le_div_of_nonneg_right hab; norm_num)))
  · exact max_le (by norm_num) (min_le_left 8 _)
  · exact max_le (by norm_num) (min_le_left 8 _)

/-- Witness for c5_stroke_weights at q = 0, r = 1, a = 0, b = 1. -/
theorem c5_stroke_weights_witness :
    NetworkAnalysis.drawLinksStrokeWidth 0 ≤ NetworkAnalysis.drawLinksStrokeWidth 1 ∧
    NetworkAnalysis.mapFlowWeight 0 ≤ NetworkAnalysis.mapFlowWeight 1 ∧
    NetworkAnalysis.getEdgeWidth 0 ≤ NetworkAnalysis.getEdgeWidth 1 ∧
    2 ≤ NetworkAnalysis.drawLinksStrokeWidth 0 ∧
    NetworkAnalysis.drawLinksStrokeWidth 0 ≤ 8 ∧
    1 ≤ NetworkAnalysis.getEdgeWidth 0 ∧
    NetworkAnalysis.getEdgeWidth 0 ≤ 8 ∧
    3 ≤ NetworkAnalysis.mapFlowWeight 0 :=
  c5_stroke_weights 0 1 0 1 (by norm_num) (by norm_num)

/-- A shape placed on the Leaflet map by a flow renderer: either a circle
(closed loop) or a two-point polyline. -/
inductive MapShape where
  | circleShape (center : Coord) (radius : ℚ)
  | lineShape (p q : Coord)
deriving DecidableEq, Repr

namespace CashFlowAnalysis

/-- Embeds the flow-line construction of
CashFlowAnalysis.updateNetworkView: a self-flow (from_bank equal to
to_bank) becomes an L.circle at the shared point with radius
`min(max(amount / 100000, 5), 15) * 1000` meters; any other flow becomes a
two-point polyline between the endpoints. -/
def renderFlowLine (from_bank to_bank : String) (amount : ℚ)
    (fromCoords toCoords : Coord) : MapShape :=
  if from_bank = to_bank then
    .circleShape fromCoords (min (max (amount / 100000) 5) 15 * 1000)
  else
    .lineShape fromCoords toCoords

end CashFlowAnalysis

namespace NetworkAnalysis

/-- Embeds the path construction of NetworkAnalysis.addTransactionFlows in
static/js/alerts.js: every flow, self-flow or not, becomes the straight
two-point polyline `[[src.lat, src.lng], [tgt.lat, tgt.lng]]` — there is
no self-flow special case. -/
def renderFlowPolyline (src tgt : Coord) : MapShape :=
  .lineShape src tgt

end NetworkAnalysis

/-- C6 counterexample: the network-analysis map renderer has no self-flow
case — a self-flow whose endpoints resolve to the same point is drawn as a
two-point polyline with identical endpoints, a zero-length degenerate
segment rather than a closed loop. -/
theorem c6_counterexample :
    NetworkAnalysis.renderFlowPolyline ⟨10, 20⟩ ⟨10, 20⟩ =
      MapShape.lineShape ⟨10, 20⟩ ⟨10, 20⟩ ∧
    ∀ center radius, NetworkAnalysis.renderFlowPolyline ⟨10, 20⟩ ⟨10, 20⟩ ≠
      MapShape.circleShape center radius := by
  exact ⟨rfl, fun _ _ h => MapShape.noConfusion h⟩

/-- C6 amended: the cash-flow renderer does render a resolved self-flow as
a distinct closed loop — an L.circle anchored at the shared point whose
radius is at least 5000 meters, hence never degenerate — while the
network-analysis map renderer draws every self-flow as a zero-length
two-point polyline.  Neither construction throws. -/
theorem c6_selfflow_circle (from_bank to_bank : String) (amount : ℚ)
    (fromCoords toCoords : Coord) (h : from_bank = to_bank) :
    CashFlowAnalysis.renderFlowLine from_bank to_bank amount fromCoords toCoords =
      MapShape.circleShape fromCoords (min (max (amount / 100000) 5) 15 * 1000) ∧
    5000 ≤ min (max (amount / 100000) 5) 15 * 1000 ∧
    NetworkAnalysis.renderFlowPolyline fromCoords fromCoords =
      MapShape.lineShape fromCoords fromCoords := by
  refine ⟨by simp [CashFlowAnalysis.renderFlowLine, h], ?_, rfl⟩
  have h5 : (5 : ℚ) ≤ min (max (amount / 100000) 5) 15 :=
    le_min (le_max_right _ 5) (by norm_num)
  linarith

/-- Witness for c6_selfflow_circle: the self-flow AA to AA with amount 0 is
rendered as a circle of radius 5000 at its resolved point. -/
theorem c6_selfflow_circle_witness :
    CashFlowAnalysis.renderFlowLine "AA" "AA" 0 ⟨1, 2⟩ ⟨3, 4⟩ =
      MapShape.circleShape ⟨1, 2⟩ (min (max ((0 : ℚ) / 100000) 5) 15 * 1000) ∧
    5000 ≤ min (max ((0 : ℚ) / 100000) 5) 15 * 1000 ∧
    NetworkAnalysis.renderFlowPolyline ⟨1, 2⟩ ⟨1, 2⟩ =
      MapShape.lineShape ⟨1, 2⟩ ⟨1, 2⟩ :=
  c6_selfflow_circle "AA" "AA" 0 ⟨1, 2⟩ ⟨3, 4⟩ rfl

/-- The dot-offset advance shared by both animation loops: add 0.005 and
wrap past 1 back to the start. -/
def stepOffset (o : ℚ) : ℚ :=
  if o + 5/1000 > 1 then 0 else o + 5/1000

namespace NetworkAnalysis

/-- The per-frame liveness context of the animateDots closure in
NetworkAnalysis.addTransactionFlows: the active view name, whether the map
object is alive, and the keys registered in this.activeAnimations. -/
structure AnimContext where
  currentView : String
  worldMapAlive : Bool
  activeAnimations : List String
deriving DecidableEq, Repr

/-- Embeds one frame of the animateDots closure in
NetworkAnalysis.addTransactionFlows: if the view is no longer the map, the
map is gone, or the flow key is no longer registered, the callback returns
without touching the dots and without scheduling another frame; otherwise
it advances every dot and schedules the next frame.  The boolean is
whether requestAnimationFrame is called again. -/
def animateDotsFrame (ctx : AnimContext) (flowId : String)
    (dots : List ℚ) : List ℚ × Bool :=
  if ctx.currentView ≠ "map" ∨ ctx.worldMapAlive = false ∨
      ctx.activeAnimations.contains flowId = false then
    (dots, false)
  else
    (dots.map stepOffset, true)

end NetworkAnalysis

namespace Dashboard

/-- Embeds one frame of the animateDots closure in
Dashboard.updateEnhancedMap: every frame advances the dots and
unconditionally schedules the next frame — the closure consults no
liveness state of any kind. -/
def animateDotsFrame (dots : List ℚ) : List ℚ × Bool :=
  (dots.map stepOffset, true)

end Dashboard

/-- C7 counterexample: the dashboard flow-dot loop checks no liveness
condition — its per-frame callback schedules the next frame
unconditionally, so removing an edge on reload cannot stop it and the
orphaned callback keeps running. -/
theorem c7_counterexample :
    (Dashboard.animateDotsFrame [0, 1/5]).2 = true :=
  rfl

/-- C7 amended: the network-analysis flow-dot loop does check liveness on
every frame — it schedules the next frame exactly when the view is still
the map, the map is alive and the flow key is still registered, and a
deregistered key makes the frame a no-op that stops the loop — but the
dashboard flow-dot loop schedules its next frame unconditionally. -/
theorem c7_animation_liveness (ctx : NetworkAnalysis.AnimContext)
    (flowId : String) (dots : List ℚ)
    (hgone : ctx.activeAnimations.contains flowId = false) :
    ((NetworkAnalysis.animateDotsFrame ctx flowId dots).2 = true ↔
      ctx.currentView = "map" ∧ ctx.worldMapAlive = true ∧
        ctx.activeAnimations.contains flowId = true) ∧
    NetworkAnalysis.animateDotsFrame ctx flowId dots = (dots, false) ∧
    (Dashboard.animateDotsFrame dots).2 = true := by
  refine ⟨?_, ?_, rfl⟩
  · unfold NetworkAnalysis.animateDotsFrame
    split_ifs with hcond
    · simp only [Bool.false_eq_true, false_iff]
      rintro ⟨h1, h2, h3⟩
      rcases hcond with hc | hc | hc
      · exact hc h1
      · rw [h2] at hc; exact absurd hc (by simp)
      · rw [h3] at hc; exact absurd hc (by simp)
    · push_neg at hcond
      simp only [true_iff]
      exact ⟨hcond.1, by simpa using hcond.2.1, by simpa using hcond.2.2⟩
  · unfold NetworkAnalysis.animateDotsFrame
    rw [if_pos (Or.inr (Or.inr hgone))]

/-- Witness for c7_animation_liveness: with the view on the map, the map
alive, and an empty animation registry, the frame for key fA is a no-op
that does not reschedule, while the dashboard frame still reschedules. -/
theorem c7_animation_liveness_witness :
    ((NetworkAnalysis.animateDotsFrame ⟨"map", true, []⟩ "fA" [0]).2 = true ↔
      ("map" : String) = "map" ∧ (true : Bool) = true ∧
        ([] : List String).contains "fA" = true) ∧
    NetworkAnalysis.animateDotsFrame ⟨"map", true, []⟩ "fA" [0] = ([0], false) ∧
    (Dashboard.animateDotsFrame [0]).2 = true :=
  c7_animation_liveness ⟨"map", true, []⟩ "fA" [0] rfl
